import Mathlib

/-
Verification of the frame-resource ring buffer and fence-synchronized
update/draw pipeline of GAME3111_A2.

The embedding follows the two application sources:
  - Week5-1-CrateApp.cpp  (class CrateApp)
  - the unnamed source (class ShapesApp, "Week4-1-BoxUsingFrameResources.cpp")
Both share the identical core: `const int gNumFrameResources = 3`, a
`RenderItem` with `NumFramesDirty` initialized to `gNumFrameResources`,
`Update` (ring rotation + fence wait + constant-buffer sweeps) and `Draw`
(allocator reset, command recording, present, fence stamp).

Modeling conventions:
  - 4x4 float matrices are embedded as integer-entry matrices `Mat4`
    (`Fin 4 → Fin 4 → Int`); the claims under scrutiny concern which
    matrix is written where and transposition, not float arithmetic.
  - The GPU is an asynchronous consumer.  Its reported completed fence
    value (`mFence->GetCompletedValue()`) is modeled by a `completedValue`
    field that advances by an externally supplied amount `adv` once per
    frame, clamped so it never exceeds the CPU-side `mCurrentFence`
    counter (the fence is only ever signaled up to `mCurrentFence`).
  - The blocking wait (`SetEventOnCompletion` + `WaitForSingleObject`)
    wakes exactly when the completed value reaches the slot's marker; we
    model the post-wait completed value as that marker (the minimal wake
    value; later GPU progress is delivered by later frames' `adv`).
-/

namespace GameA2

/-- `const int gNumFrameResources = 3;` (CrateApp.cpp line 34, ShapesApp
line 32). -/
def gNumFrameResources : Nat := 3

/-- A 4x4 matrix (embedding of `XMFLOAT4X4`/`XMMATRIX`; entries are
integers since the claims concern data movement, not float arithmetic). -/
abbrev Mat4 : Type := Fin 4 → Fin 4 → Int

/-- `XMMatrixTranspose`. -/
def XMMatrixTranspose (m : Mat4) : Mat4 := fun i j => m j i

/-- `struct RenderItem` (CrateApp.cpp lines 40-70): world transform,
texture transform, dirty countdown (`int NumFramesDirty`), and the index
into the per-object constant buffer.  (ShapesApp's variant lacks
`TexTransform`; the sweep is otherwise identical.)  Geometry and material
references are out of the claims' scope and omitted. -/
structure RenderItem where
  World : Mat4
  TexTransform : Mat4
  NumFramesDirty : Int
  ObjCBIndex : Nat

/-- Construction default of a `RenderItem`: `NumFramesDirty =
gNumFrameResources` (CrateApp.cpp line 55), identity transforms. -/
def mkRenderItem (w t : Mat4) (idx : Nat) : RenderItem :=
  { World := w, TexTransform := t,
    NumFramesDirty := (gNumFrameResources : Int), ObjCBIndex := idx }

/-- `struct ObjectConstants` payload written by `UpdateObjectCBs`:
the world and texture transforms, transposed. -/
structure ObjectConstants where
  World : Mat4
  TexTransform : Mat4

/-- The per-object constant buffer of one frame resource, viewed as a
partial map from element index to the last payload copied there
(`none` = never written). -/
abbrev ObjectCBuffer : Type := Nat → Option ObjectConstants

/-- `UploadBuffer::CopyData(i, v)`.  Modelled from the spec: the
`UploadBuffer` class lives in `Common/UploadBuffer.h`, outside the
provided sources; per §4.3 it writes the payload into the buffer at the
designated element index. -/
def CopyData (buf : ObjectCBuffer) (i : Nat) (v : ObjectConstants) : ObjectCBuffer :=
  fun j => if j = i then some v else buf j

/-- `struct FrameResource`.  Modelled from the spec (§2, §3 "Frame
Resource"): the class is declared in `FrameResource.h`, outside the
provided sources, but its fields are fixed by their uses in the two apps:
`Fence` (completion marker, 0 = never submitted), `ObjectCB` (per-object
constant buffer), `PassCB` (per-pass constant buffer) and `CmdListAlloc`
(command allocator).  The pass buffer's float camera/timing payload is
abstracted to a count of CPU writes, and the allocator's contents to a
count of resets: the claims concern only when those writes/resets occur
relative to the fence wait. -/
structure FrameResource where
  Fence : Nat
  ObjectCB : ObjectCBuffer
  PassCBWrites : Nat
  CmdAllocResets : Nat

instance : Inhabited FrameResource :=
  ⟨{ Fence := 0, ObjectCB := fun _ => none, PassCBWrites := 0, CmdAllocResets := 0 }⟩

/-- A freshly constructed `FrameResource` (BuildFrameResources): marker 0,
nothing written. -/
def mkFrameResource : FrameResource :=
  { Fence := 0, ObjectCB := fun _ => none, PassCBWrites := 0, CmdAllocResets := 0 }

/-- `SwapChainBufferCount`.  Modelled from the spec: the constant lives in
`Common/d3dApp.h`, outside the provided sources; the Present step
"advances the display-buffer index by 1 modulo the swap-chain buffer
count" — the framework uses double buffering. -/
def SwapChainBufferCount : Nat := 2

/-- The mutable state of the app that the per-frame state machine touches:
the ring of frame resources (`mFrameResources`, 3 elements), the current
ring index, the CPU-side fence counter (`mCurrentFence`), the GPU-reported
completed value (`mFence->GetCompletedValue()`), the render items
(`mAllRitems`) and the display back-buffer index (`mCurrBackBuffer`). -/
structure AppState where
  frameResources : List FrameResource
  mCurrFrameResourceIndex : Nat
  mCurrentFence : Nat
  completedValue : Nat
  mAllRitems : List RenderItem
  mCurrBackBuffer : Nat

/-- `mFrameResources[mCurrFrameResourceIndex]` (total embedding: a default
fresh resource stands in for an out-of-range access, which the app never
performs since the index stays below 3). -/
def currSlot (s : AppState) : FrameResource :=
  s.frameResources.getD s.mCurrFrameResourceIndex default

/-- External GPU progress during a frame: the completed value advances by
`adv`, but never beyond the highest signaled fence (`mCurrentFence`). -/
def gpuProgress (adv : Nat) (s : AppState) : AppState :=
  { s with completedValue := min (s.completedValue + adv) s.mCurrentFence }

/-- `mCurrFrameResourceIndex = (mCurrFrameResourceIndex + 1) %
gNumFrameResources;` (CrateApp.cpp line 263, ShapesApp line 238). -/
def rotate (s : AppState) : AppState :=
  { s with mCurrFrameResourceIndex :=
      (s.mCurrFrameResourceIndex + 1) % gNumFrameResources }

/-- The fence wait of `Update` (CrateApp.cpp lines 268-274): if
`Fence != 0 && GetCompletedValue() < Fence`, block until the completed
value reaches `Fence`; we model the post-wait completed value as exactly
the marker (minimal wake value).  Otherwise the completed value is
untouched. -/
def waitForFence (completed fence : Nat) : Nat :=
  if fence ≠ 0 ∧ completed < fence then fence else completed

/-- The Synchronize step: apply `waitForFence` against the newly current
slot's stored marker.  Only the (GPU-side) completed value can change. -/
def synchronize (s : AppState) : AppState :=
  { s with completedValue := waitForFence s.completedValue (currSlot s).Fence }

/-- The `ObjectConstants` computed for a render item inside
`UpdateObjectCBs` (CrateApp.cpp lines 421-426): both transforms
transposed. -/
def objConstantsOf (e : RenderItem) : ObjectConstants :=
  { World := XMMatrixTranspose e.World,
    TexTransform := XMMatrixTranspose e.TexTransform }

/-- The loop body of `UpdateObjectCBs` (CrateApp.cpp lines 415-433,
ShapesApp lines 435-451) threaded over the item list: for each item with
`NumFramesDirty > 0`, copy the transposed payload into the buffer at
`ObjCBIndex` and decrement the countdown; otherwise leave item and buffer
alone.  Returns the updated items and buffer. -/
def updateObjectCBsLoop : List RenderItem → ObjectCBuffer → List RenderItem × ObjectCBuffer
  | [], buf => ([], buf)
  | e :: es, buf =>
    if 0 < e.NumFramesDirty then
      let buf' := CopyData buf e.ObjCBIndex (objConstantsOf e)
      let rest := updateObjectCBsLoop es buf'
      ({ e with NumFramesDirty := e.NumFramesDirty - 1 } :: rest.1, rest.2)
    else
      let rest := updateObjectCBsLoop es buf
      (e :: rest.1, rest.2)

/-- `UpdateObjectCBs`: run the sweep against the current slot's per-object
buffer. -/
def updateObjectCBs (s : AppState) : AppState :=
  let slot := currSlot s
  let res := updateObjectCBsLoop s.mAllRitems slot.ObjectCB
  let slot' : FrameResource := { slot with ObjectCB := res.2 }
  { s with mAllRitems := res.1,
           frameResources := s.frameResources.set s.mCurrFrameResourceIndex slot' }

/-- `UpdateMainPassCB`: one write of the per-pass constants into the
current slot's pass buffer (payload abstracted; see `FrameResource`). -/
def updateMainPassCB (s : AppState) : AppState :=
  let slot := currSlot s
  let slot' : FrameResource := { slot with PassCBWrites := slot.PassCBWrites + 1 }
  { s with frameResources := s.frameResources.set s.mCurrFrameResourceIndex slot' }

/-- The Update step after the wait: the constant-buffer sweeps
(`UpdateObjectCBs` then `UpdateMainPassCB`). -/
def updatePhase (s : AppState) : AppState :=
  updateMainPassCB (updateObjectCBs s)

/-- `CrateApp::Update` / `ShapesApp::Update` core: rotate the ring, wait
on the new slot's fence, then run the sweeps against it. -/
def updateStep (s : AppState) : AppState :=
  updatePhase (synchronize (rotate s))

/-- `cmdListAlloc->Reset()` at the top of `Draw` (CrateApp.cpp line 288):
reset the current slot's command allocator. -/
def resetAllocator (s : AppState) : AppState :=
  let slot := currSlot s
  let slot' : FrameResource := { slot with CmdAllocResets := slot.CmdAllocResets + 1 }
  { s with frameResources := s.frameResources.set s.mCurrFrameResourceIndex slot' }

/-- `mSwapChain->Present(0,0); mCurrBackBuffer = (mCurrBackBuffer + 1) %
SwapChainBufferCount;` (CrateApp.cpp lines 330-331). -/
def present (s : AppState) : AppState :=
  { s with mCurrBackBuffer := (s.mCurrBackBuffer + 1) % SwapChainBufferCount }

/-- The Stamp step (CrateApp.cpp lines 334-339):
`mCurrFrameResource->Fence = ++mCurrentFence; mCommandQueue->Signal(...)`.
The incremented CPU counter is stored as the current slot's marker; the
signal's effect on the completed value is asynchronous (see
`gpuProgress`). -/
def stamp (s : AppState) : AppState :=
  let newFence := s.mCurrentFence + 1
  let slot' : FrameResource := { currSlot s with Fence := newFence }
  { s with mCurrentFence := newFence,
           frameResources := s.frameResources.set s.mCurrFrameResourceIndex slot' }

/-- `Draw` core: allocator reset, command recording and submission (which
mutate none of the modeled CPU state), present, then stamp. -/
def drawStep (s : AppState) : AppState :=
  stamp (present (resetAllocator s))

/-- One produced frame: GPU progress becomes visible, then `Update`
(rotate, synchronize, sweeps) then `Draw`. -/
def frameStep (adv : Nat) (s : AppState) : AppState :=
  drawStep (updateStep (gpuProgress adv s))

/-- A run of the main loop: one `frameStep` per element of `advs` (the
per-frame GPU progress amounts). -/
def run : List Nat → AppState → AppState
  | [], s => s
  | adv :: advs, s => run advs (frameStep adv s)

/-- The app state right after `Initialize`: three fresh frame resources,
ring index 0 (CrateApp.cpp line 131), fence counter and completed value 0,
back buffer 0, with the built render items. -/
def initialState (items : List RenderItem) : AppState :=
  { frameResources := [mkFrameResource, mkFrameResource, mkFrameResource],
    mCurrFrameResourceIndex := 0,
    mCurrentFence := 0,
    completedValue := 0,
    mAllRitems := items,
    mCurrBackBuffer := 0 }

/-- The `ObjCBIndex` values assigned in `CrateApp::BuildRenderItems`
(CrateApp.cpp lines 1126-1463), in push order; one `mAllRitems.push_back`
per item, 27 in all (the tree-sprites item is pushed last).  The items'
float world transforms are irrelevant to the bounds claim and omitted. -/
def crateObjCBIndices : List Nat :=
  [0, 1, 2, 3, 4, 5, 6, 7, 8, 9, 10, 11, 12, 13, 14, 15, 16, 17, 18, 19,
   20, 21, 22, 23, 24, 25, 26]

/-- The per-object buffer capacity each of the three `FrameResource`s is
built with in `CrateApp::BuildFrameResources` (CrateApp.cpp lines
1059-1066): `(UINT)mAllRitems.size()`, and `BuildRenderItems()` runs
before `BuildFrameResources()` (Initialize, lines 233-234), so this is the
total render-item count. -/
def crateObjectCount : Nat := crateObjCBIndices.length

/-- The `ObjCBIndex` values of `mOpaqueRitems`, the list `DrawRenderItems`
draws from (CrateApp.cpp lines 1475-1477): every `mAllRitems` entry except
the tree-sprites item, which is pushed after the opaque list is built. -/
def crateOpaqueObjCBIndices : List Nat :=
  [0, 1, 2, 3, 4, 5, 6, 7, 8, 9, 10, 11, 12, 13, 14, 15, 16, 17, 18, 19,
   20, 21, 22, 23, 24, 25]

/-- The `ObjCBIndex` values assigned in `ShapesApp::BuildRenderItems`
(ShapesApp lines 853-1126), 26 items in push order. -/
def shapesObjCBIndices : List Nat :=
  [0, 1, 2, 3, 4, 5, 6, 7, 8, 9, 10, 11, 12, 13, 14, 15, 16, 17, 18, 19,
   20, 21, 22, 23, 24, 25]

/-- `ShapesApp::BuildFrameResources` (ShapesApp lines 838-845) likewise
sizes every frame resource with `(UINT)mAllRitems.size()`, after
`BuildRenderItems()` (Initialize lines 201-202). -/
def shapesObjectCount : Nat := shapesObjCBIndices.length

/-- The per-item transformation performed by one pass of the
`UpdateObjectCBs` loop: decrement the countdown when it is positive,
otherwise leave the item untouched. -/
def stepItem (e : RenderItem) : RenderItem :=
  if 0 < e.NumFramesDirty then { e with NumFramesDirty := e.NumFramesDirty - 1 } else e

/-- The bounds invariant on a render item's dirty countdown. -/
def DirtyBounds (e : RenderItem) : Prop :=
  0 ≤ e.NumFramesDirty ∧ e.NumFramesDirty ≤ (gNumFrameResources : Int)

/-- Modelled from the spec: no code under `src/` mutates a render item's
transform after scene build; the `RenderItem` declaration's comment
(CrateApp.cpp lines 51-55, ShapesApp lines 44-48) prescribes
`NumFramesDirty = gNumFrameResources` whenever object data is modified.
`setWorld` is that prescribed mutation: store the new world transform and
reset (never add to) the countdown. -/
def setWorld (e : RenderItem) (w : Mat4) : RenderItem :=
  { e with World := w, NumFramesDirty := (gNumFrameResources : Int) }

/-- The fence-protocol invariant of §3 "Completion Tracker": the
GPU-reported completed value and every slot's stored marker never exceed
the CPU-side fence counter. -/
def FenceInv (s : AppState) : Prop :=
  s.completedValue ≤ s.mCurrentFence ∧
  ∀ fr ∈ s.frameResources, fr.Fence ≤ s.mCurrentFence

lemma getD_prop {α : Type} {P : α → Prop} :
    ∀ (l : List α) (n : Nat) (d : α), (∀ x ∈ l, P x) → P d → P (l.getD n d) := by
  intro l
  induction l with
  | nil => intro n d _ hd; simpa [List.getD] using hd
  | cons a l ih =>
    intro n d hl hd
    cases n with
    | zero => simpa [List.getD] using hl a (by simp)
    | succ m =>
      simpa [List.getD] using ih m d (fun x hx => hl x (by simp [hx])) hd

lemma getD_set_self {α : Type} :
    ∀ (l : List α) (n : Nat) (a d : α), n < l.length → (l.set n a).getD n d = a := by
  intro l
  induction l with
  | nil => intro n a d h; simp at h
  | cons b l ih =>
    intro n a d h
    cases n with
    | zero => simp [List.getD]
    | succ m => simpa [List.getD] using ih m a d (by simpa using h)

lemma set_prop {α : Type} {P : α → Prop} (l : List α) (n : Nat) (a : α)
    (hl : ∀ x ∈ l, P x) (ha : P a) : ∀ x ∈ l.set n a, P x := by
  intro x hx
  rcases List.mem_or_eq_of_mem_set hx with h | rfl
  · exact hl x h
  · exact ha

lemma frameStep_idx (adv : Nat) (s : AppState) :
    (frameStep adv s).mCurrFrameResourceIndex =
      (s.mCurrFrameResourceIndex + 1) % gNumFrameResources := by
  simp [frameStep, drawStep, updateStep, updatePhase, stamp, present,
    resetAllocator, updateMainPassCB, updateObjectCBs, synchronize, rotate,
    gpuProgress]

lemma run_idx : ∀ (advs : List Nat) (s : AppState),
    s.mCurrFrameResourceIndex < gNumFrameResources →
    (run advs s).mCurrFrameResourceIndex =
      (s.mCurrFrameResourceIndex + advs.length) % gNumFrameResources := by
  intro advs
  induction advs with
  | nil =>
    intro s h
    simpa [run, gNumFrameResources] using (Nat.mod_eq_of_lt (by simpa [gNumFrameResources] using h)).symm
  | cons a advs ih =>
    intro s h
    have h1 : (frameStep a s).mCurrFrameResourceIndex < gNumFrameResources := by
      rw [frameStep_idx]
      exact Nat.mod_lt _ (by simp [gNumFrameResources])
    have := ih (frameStep a s) h1
    rw [run, this, frameStep_idx]
    simp only [gNumFrameResources, List.length_cons]
    omega

/-- C4: the current frame-resource index advances by exactly 1 modulo
N = 3 once per produced frame (it is set by the ring-rotation assignment
at the top of `Update`, before any per-frame state is touched), and —
since the index starts at 0 and is incremented before first use — the
slot selected for frame F (frames numbered from 1) has index F mod N. -/
theorem C4_ring_rotation (a : Nat) (advs : List Nat) (s0 : AppState)
    (h0 : s0.mCurrFrameResourceIndex = 0) :
    (∀ t : AppState, (frameStep a t).mCurrFrameResourceIndex =
        (t.mCurrFrameResourceIndex + 1) % gNumFrameResources) ∧
    (run (a :: advs) s0).mCurrFrameResourceIndex =
      (a :: advs).length % gNumFrameResources := by
  refine ⟨fun t => frameStep_idx a t, ?_⟩
  rw [run_idx (a :: advs) s0 (by simp [h0, gNumFrameResources]), h0]
  simp

/-- C4 witness: frame count 4 from the freshly initialized state selects
slot 4 mod 3 = 1. -/
theorem C4_ring_rotation_witness :
    (initialState []).mCurrFrameResourceIndex = 0 ∧
    (run [0, 0, 0, 0] (initialState [])).mCurrFrameResourceIndex =
      [0, 0, 0, 0].length % gNumFrameResources := by
  exact ⟨rfl, (C4_ring_rotation 0 [0, 0, 0] (initialState []) rfl).2⟩

/-- C10: in both apps every render item's `ObjCBIndex` is distinct and
strictly below the per-object constant-buffer capacity that each of the
three frame resources is allocated with (the total render-item count at
`BuildFrameResources` time), so every `CopyData` write and every
draw-time constant-buffer address offset (which `DrawRenderItems` takes
from the opaque subset) stays within the allocated buffer. -/
theorem C10_objcb_indices_in_bounds :
    crateObjCBIndices.Nodup ∧
    (∀ i ∈ crateObjCBIndices, i < crateObjectCount) ∧
    (∀ i ∈ crateOpaqueObjCBIndices, i < crateObjectCount) ∧
    shapesObjCBIndices.Nodup ∧
    (∀ i ∈ shapesObjCBIndices, i < shapesObjectCount) := by
  refine ⟨?_, ?_, ?_, ?_, ?_⟩ <;> decide

lemma synchronize_eq_self_of_guard (s : AppState)
    (h : (currSlot s).Fence = 0 ∨ (currSlot s).Fence ≤ s.completedValue) :
    synchronize s = s := by
  have hw : waitForFence s.completedValue (currSlot s).Fence = s.completedValue := by
    unfold waitForFence
    rcases h with h | h
    · simp [h]
    · rw [if_neg]; rintro ⟨-, hlt⟩; omega
  cases s
  simp [synchronize] at hw ⊢
  exact hw

lemma synchronize_completedValue_of_block (s : AppState)
    (h : ¬ ((currSlot s).Fence = 0 ∨ (currSlot s).Fence ≤ s.completedValue)) :
    (synchronize s).completedValue = (currSlot s).Fence := by
  push_neg at h
  show waitForFence s.completedValue (currSlot s).Fence = (currSlot s).Fence
  unfold waitForFence
  exact if_pos ⟨h.1, by omega⟩

lemma synchronize_post (s : AppState) :
    (currSlot s).Fence = 0 ∨ (currSlot s).Fence ≤ (synchronize s).completedValue := by
  by_cases hg : (currSlot s).Fence = 0 ∨ (currSlot s).Fence ≤ s.completedValue
  · rw [synchronize_eq_self_of_guard s hg]; exact hg
  · right
    rw [synchronize_completedValue_of_block s hg]

/-- C2: after slot selection, the per-frame wait is skipped — the whole
`synchronize` step is the identity on the state — if and only if the
slot's stored marker is 0 or the completed value has already reached it;
otherwise the thread blocks and wakes with the completed value at the
marker.  In either case the wait mutates no pipeline state: slot markers,
buffers, the ring index, the fence counter and the dirty countdowns are
untouched (only the GPU-reported completed value can change). -/
theorem C2_synchronize_guard (s : AppState) :
    (synchronize s = s ↔
      ((currSlot s).Fence = 0 ∨ (currSlot s).Fence ≤ s.completedValue)) ∧
    ((currSlot s).Fence = 0 ∨ (currSlot s).Fence ≤ (synchronize s).completedValue) ∧
    (synchronize s).frameResources = s.frameResources ∧
    (synchronize s).mCurrFrameResourceIndex = s.mCurrFrameResourceIndex ∧
    (synchronize s).mCurrentFence = s.mCurrentFence ∧
    (synchronize s).mAllRitems = s.mAllRitems ∧
    (synchronize s).mCurrBackBuffer = s.mCurrBackBuffer := by
  refine ⟨⟨?_, synchronize_eq_self_of_guard s⟩, synchronize_post s, rfl, rfl, rfl, rfl, rfl⟩
  intro heq
  by_contra hg
  have hb := synchronize_completedValue_of_block s hg
  rw [heq] at hb
  push_neg at hg
  omega

lemma updatePhase_completedValue (s : AppState) :
    (updatePhase s).completedValue = s.completedValue := rfl

lemma updatePhase_idx (s : AppState) :
    (updatePhase s).mCurrFrameResourceIndex = s.mCurrFrameResourceIndex := rfl

lemma updatePhase_currSlot_Fence (s : AppState) :
    (currSlot (updatePhase s)).Fence = (currSlot s).Fence := by
  by_cases h : s.mCurrFrameResourceIndex < s.frameResources.length
  · simp only [updatePhase, updateMainPassCB, updateObjectCBs, currSlot]
    rw [getD_set_self _ _ _ _ (by simpa using h), getD_set_self _ _ _ _ (by simpa using h)]
  · have hlen : ∀ (l : List FrameResource) n a, ¬ n < l.length → l.set n a = l := by
      intro l n a hn
      exact List.set_eq_of_length_le (by omega)
    simp only [updatePhase, updateMainPassCB, updateObjectCBs, currSlot]
    rw [hlen _ _ _ (by simpa using h)]
    rw [hlen _ _ _ (by simpa using h)]

/-- C1: no premature reuse.  Within a frame, let `t` be the state right
after the Synchronize step (rotation followed by the fence wait).  The
wait establishes `slot.Fence = 0 ∨ slot.Fence ≤ completedValue` at that
moment; the constant-buffer writes (object and pass sweeps, `updatePhase`)
run against exactly that state, change neither the completed value nor
the slot's marker, and the command-allocator reset (the first action of
`drawStep`) runs only after them — so the CPU never begins a buffer write
or an allocator reset while the completed value is below the slot's
marker as sampled at Synchronize. -/
theorem C1_no_premature_reuse (adv : Nat) (s : AppState) :
    ((currSlot (synchronize (rotate (gpuProgress adv s)))).Fence = 0 ∨
      (currSlot (synchronize (rotate (gpuProgress adv s)))).Fence ≤
        (synchronize (rotate (gpuProgress adv s))).completedValue) ∧
    (updatePhase (synchronize (rotate (gpuProgress adv s)))).completedValue =
      (synchronize (rotate (gpuProgress adv s))).completedValue ∧
    (currSlot (updatePhase (synchronize (rotate (gpuProgress adv s))))).Fence =
      (currSlot (synchronize (rotate (gpuProgress adv s)))).Fence ∧
    (updatePhase (synchronize (rotate (gpuProgress adv s)))).mCurrFrameResourceIndex =
      (synchronize (rotate (gpuProgress adv s))).mCurrFrameResourceIndex ∧
    frameStep adv s =
      drawStep (updatePhase (synchronize (rotate (gpuProgress adv s)))) := by
  refine ⟨synchronize_post (rotate (gpuProgress adv s)),
    updatePhase_completedValue _, updatePhase_currSlot_Fence _,
    updatePhase_idx _, rfl⟩

lemma currSlot_Fence_le (s : AppState) (hInv : FenceInv s) :
    (currSlot s).Fence ≤ s.mCurrentFence := by
  exact getD_prop (P := fun fr => fr.Fence ≤ s.mCurrentFence)
    s.frameResources s.mCurrFrameResourceIndex default hInv.2 (Nat.zero_le _)

lemma fenceInv_gpuProgress (adv : Nat) (s : AppState) (h : FenceInv s) :
    FenceInv (gpuProgress adv s) := by
  refine ⟨?_, h.2⟩
  simp [gpuProgress]

lemma fenceInv_rotate (s : AppState) (h : FenceInv s) : FenceInv (rotate s) := h

lemma fenceInv_synchronize (s : AppState) (h : FenceInv s) :
    FenceInv (synchronize s) := by
  refine ⟨?_, h.2⟩
  show waitForFence s.completedValue (currSlot s).Fence ≤ s.mCurrentFence
  unfold waitForFence
  split
  · exact currSlot_Fence_le s h
  · exact h.1

lemma fenceInv_updateObjectCBs (s : AppState) (h : FenceInv s) :
    FenceInv (updateObjectCBs s) := by
  refine ⟨h.1, ?_⟩
  exact set_prop _ _ _ h.2 (currSlot_Fence_le s h)

lemma fenceInv_updateMainPassCB (s : AppState) (h : FenceInv s) :
    FenceInv (updateMainPassCB s) := by
  refine ⟨h.1, ?_⟩
  exact set_prop _ _ _ h.2 (currSlot_Fence_le s h)

lemma fenceInv_resetAllocator (s : AppState) (h : FenceInv s) :
    FenceInv (resetAllocator s) := by
  refine ⟨h.1, ?_⟩
  exact set_prop _ _ _ h.2 (currSlot_Fence_le s h)

lemma fenceInv_present (s : AppState) (h : FenceInv s) : FenceInv (present s) := h

lemma fenceInv_stamp (s : AppState) (h : FenceInv s) : FenceInv (stamp s) := by
  refine ⟨Nat.le_succ_of_le h.1, ?_⟩
  refine set_prop _ _ _ (fun fr hfr => Nat.le_succ_of_le (h.2 fr hfr)) ?_
  exact Nat.le_refl _

lemma fenceInv_frameStep (adv : Nat) (s : AppState) (h : FenceInv s) :
    FenceInv (frameStep adv s) :=
  fenceInv_stamp _ (fenceInv_present _ (fenceInv_resetAllocator _
    (fenceInv_updateMainPassCB _ (fenceInv_updateObjectCBs _
      (fenceInv_synchronize _ (fenceInv_rotate _ (fenceInv_gpuProgress adv s h)))))))

lemma frameStep_mCurrentFence (adv : Nat) (s : AppState) :
    (frameStep adv s).mCurrentFence = s.mCurrentFence + 1 := rfl

lemma frameStep_frameResources_length (adv : Nat) (s : AppState) :
    (frameStep adv s).frameResources.length = s.frameResources.length := by
  simp [frameStep, drawStep, updateStep, updatePhase, stamp, present,
    resetAllocator, updateMainPassCB, updateObjectCBs, synchronize, rotate,
    gpuProgress]

lemma stamp_marker (s : AppState) (h : s.mCurrFrameResourceIndex < s.frameResources.length) :
    (((stamp s).frameResources).getD s.mCurrFrameResourceIndex default).Fence =
      s.mCurrentFence + 1 := by
  show ((s.frameResources.set s.mCurrFrameResourceIndex _).getD
      s.mCurrFrameResourceIndex default).Fence = s.mCurrentFence + 1
  rw [getD_set_self _ _ _ _ h]

lemma frameStep_stamped_marker (adv : Nat) (s : AppState)
    (hlen : s.frameResources.length = gNumFrameResources) :
    (((frameStep adv s).frameResources).getD
        ((s.mCurrFrameResourceIndex + 1) % gNumFrameResources) default).Fence =
      s.mCurrentFence + 1 := by
  have hp : (present (resetAllocator (updatePhase (synchronize (rotate
      (gpuProgress adv s)))))).mCurrFrameResourceIndex =
      (s.mCurrFrameResourceIndex + 1) % gNumFrameResources := rfl
  have hplen : (present (resetAllocator (updatePhase (synchronize (rotate
      (gpuProgress adv s)))))).frameResources.length = gNumFrameResources := by
    simp [present, resetAllocator, updatePhase, updateMainPassCB,
      updateObjectCBs, synchronize, rotate, gpuProgress, hlen]
  have := stamp_marker (present (resetAllocator (updatePhase (synchronize
    (rotate (gpuProgress adv s))))))
    (by rw [hp, hplen]; exact Nat.mod_lt _ (by simp [gNumFrameResources]))
  simpa [hp] using this

/-- C3: each Stamp step assigns the just-used slot the marker obtained by
incrementing the CPU-side fence counter (`++mCurrentFence`), so the new
marker strictly exceeds every marker previously stored in any slot —
successive stamps across frames are strictly increasing — and the
GPU-reported completed value never exceeds the fence counter (hence never
exceeds the highest issued marker); both facts are preserved by every
frame. -/
theorem C3_marker_monotonicity (adv : Nat) (s : AppState) (hInv : FenceInv s)
    (hlen : s.frameResources.length = gNumFrameResources) :
    (frameStep adv s).mCurrentFence = s.mCurrentFence + 1 ∧
    (((frameStep adv s).frameResources).getD
        ((s.mCurrFrameResourceIndex + 1) % gNumFrameResources) default).Fence =
      s.mCurrentFence + 1 ∧
    (∀ fr ∈ s.frameResources, fr.Fence < (frameStep adv s).mCurrentFence) ∧
    FenceInv (frameStep adv s) ∧
    (frameStep adv s).frameResources.length = gNumFrameResources := by
  refine ⟨frameStep_mCurrentFence adv s, frameStep_stamped_marker adv s hlen,
    ?_, fenceInv_frameStep adv s hInv, ?_⟩
  · intro fr hfr
    rw [frameStep_mCurrentFence]
    exact Nat.lt_succ_of_le (hInv.2 fr hfr)
  · rw [frameStep_frameResources_length, hlen]

/-- C3 witness: the freshly initialized state satisfies the fence
invariant and has three slots; one frame from it stamps marker 1. -/
theorem C3_marker_monotonicity_witness :
    ((initialState []).completedValue ≤ (initialState []).mCurrentFence ∧
      ∀ fr ∈ (initialState []).frameResources,
        fr.Fence ≤ (initialState []).mCurrentFence) ∧
    (initialState []).frameResources.length = gNumFrameResources ∧
    (frameStep 2 (initialState [])).mCurrentFence =
      (initialState []).mCurrentFence + 1 := by
  have hInv : FenceInv (initialState []) :=
    ⟨Nat.le_refl 0, by intro fr hfr; fin_cases hfr <;> exact Nat.le_refl 0⟩
  exact ⟨hInv, rfl,
    (C3_marker_monotonicity 2 (initialState []) hInv rfl).1⟩

lemma loop_fst : ∀ (items : List RenderItem) (buf : ObjectCBuffer),
    (updateObjectCBsLoop items buf).1 = items.map stepItem := by
  intro items
  induction items with
  | nil => intro buf; simp [updateObjectCBsLoop]
  | cons e es ih =>
    intro buf
    by_cases h : 0 < e.NumFramesDirty
    · simp [updateObjectCBsLoop, h, stepItem, ih]
    · simp [updateObjectCBsLoop, h, stepItem, ih]

lemma loop_buf_ne : ∀ (items : List RenderItem) (buf : ObjectCBuffer) (j : Nat),
    (∀ e ∈ items, 0 < e.NumFramesDirty → e.ObjCBIndex ≠ j) →
    (updateObjectCBsLoop items buf).2 j = buf j := by
  intro items
  induction items with
  | nil => intro buf j _; simp [updateObjectCBsLoop]
  | cons e es ih =>
    intro buf j h
    by_cases hd : 0 < e.NumFramesDirty
    · have hne : e.ObjCBIndex ≠ j := h e (by simp) hd
      simp only [updateObjectCBsLoop, if_pos hd]
      rw [ih _ j (fun e' he' => h e' (by simp [he']))]
      unfold CopyData
      rw [if_neg (fun hj => hne hj.symm)]
    · simp only [updateObjectCBsLoop, if_neg hd]
      exact ih _ j (fun e' he' => h e' (by simp [he']))

lemma loop_buf_dirty : ∀ (items : List RenderItem) (buf : ObjectCBuffer)
    (k : Nat) (hk : k < items.length),
    (items.map RenderItem.ObjCBIndex).Nodup →
    0 < (items.get ⟨k, hk⟩).NumFramesDirty →
    (updateObjectCBsLoop items buf).2 (items.get ⟨k, hk⟩).ObjCBIndex =
      some (objConstantsOf (items.get ⟨k, hk⟩)) := by
  intro items
  induction items with
  | nil => intro buf k hk _ _; simp at hk
  | cons e es ih =>
    intro buf k hk hnd hdk
    have hnd' : (es.map RenderItem.ObjCBIndex).Nodup := (List.nodup_cons.mp hnd).2
    have hhead : e.ObjCBIndex ∉ es.map RenderItem.ObjCBIndex := (List.nodup_cons.mp hnd).1
    cases k with
    | zero =>
      simp only [List.get] at hdk ⊢
      simp only [updateObjectCBsLoop, if_pos hdk]
      rw [loop_buf_ne es _ e.ObjCBIndex ?_]
      · simp [CopyData]
      · intro e' he' _ heq
        exact hhead (heq ▸ List.mem_map_of_mem RenderItem.ObjCBIndex he')
    | succ m =>
      simp only [List.get] at hdk ⊢
      by_cases hd : 0 < e.NumFramesDirty
      · simp only [updateObjectCBsLoop, if_pos hd]
        exact ih _ m (by simpa using hk) hnd' hdk
      · simp only [updateObjectCBsLoop, if_neg hd]
        exact ih _ m (by simpa using hk) hnd' hdk

lemma loop_buf_clean : ∀ (items : List RenderItem) (buf : ObjectCBuffer)
    (k : Nat) (hk : k < items.length),
    (items.map RenderItem.ObjCBIndex).Nodup →
    ¬ 0 < (items.get ⟨k, hk⟩).NumFramesDirty →
    (updateObjectCBsLoop items buf).2 (items.get ⟨k, hk⟩).ObjCBIndex =
      buf (items.get ⟨k, hk⟩).ObjCBIndex := by
  intro items
  induction items with
  | nil => intro buf k hk _ _; simp at hk
  | cons e es ih =>
    intro buf k hk hnd hdk
    have hnd' : (es.map RenderItem.ObjCBIndex).Nodup := (List.nodup_cons.mp hnd).2
    have hhead : e.ObjCBIndex ∉ es.map RenderItem.ObjCBIndex := (List.nodup_cons.mp hnd).1
    cases k with
    | zero =>
      simp only [List.get] at hdk ⊢
      simp only [updateObjectCBsLoop, if_neg hdk]
      exact loop_buf_ne es _ e.ObjCBIndex
        (fun e' he' _ heq => hhead (heq ▸ List.mem_map_of_mem RenderItem.ObjCBIndex he'))
    | succ m =>
      simp only [List.get] at hdk ⊢
      have hmem : (es.get ⟨m, by simpa using hk⟩).ObjCBIndex ∈ es.map RenderItem.ObjCBIndex :=
        List.mem_map_of_mem RenderItem.ObjCBIndex (es.get_mem _ _)
      by_cases hd : 0 < e.NumFramesDirty
      · simp only [updateObjectCBsLoop, if_pos hd]
        rw [ih _ m (by simpa using hk) hnd' hdk]
        simp [CopyData]
        intro heq
        exact absurd (heq ▸ hmem) hhead
      · simp only [updateObjectCBsLoop, if_neg hd]
        exact ih _ m (by simpa using hk) hnd' hdk

/-- C5: one pass of the `UpdateObjectCBs` sweep.  The output item list is
the input list with each positive countdown decremented by exactly 1 and
every other item untouched (`stepItem`); for every item with positive
countdown the buffer afterwards holds that item's transposed payload at
exactly its `ObjCBIndex`; for every item with countdown 0 the buffer at
its index is unchanged (no write), and, in general, the sweep writes
nothing at any index not owned by a dirty item. -/
theorem C5_dirty_propagation (items : List RenderItem) (buf : ObjectCBuffer)
    (hnd : (items.map RenderItem.ObjCBIndex).Nodup)
    (k : Nat) (hk : k < items.length) :
    ((updateObjectCBsLoop items buf).1 = items.map stepItem) ∧
    (0 < (items.get ⟨k, hk⟩).NumFramesDirty →
      stepItem (items.get ⟨k, hk⟩) =
        { items.get ⟨k, hk⟩ with
            NumFramesDirty := (items.get ⟨k, hk⟩).NumFramesDirty - 1 } ∧
      (updateObjectCBsLoop items buf).2 (items.get ⟨k, hk⟩).ObjCBIndex =
        some (objConstantsOf (items.get ⟨k, hk⟩))) ∧
    (¬ 0 < (items.get ⟨k, hk⟩).NumFramesDirty →
      stepItem (items.get ⟨k, hk⟩) = items.get ⟨k, hk⟩ ∧
      (updateObjectCBsLoop items buf).2 (items.get ⟨k, hk⟩).ObjCBIndex =
        buf (items.get ⟨k, hk⟩).ObjCBIndex) ∧
    (∀ j : Nat, (∀ e ∈ items, 0 < e.NumFramesDirty → e.ObjCBIndex ≠ j) →
      (updateObjectCBsLoop items buf).2 j = buf j) := by
  refine ⟨loop_fst items buf, ?_, ?_, fun j hj => loop_buf_ne items buf j hj⟩
  · intro hd
    exact ⟨by unfold stepItem; rw [if_pos hd], loop_buf_dirty items buf k hk hnd hd⟩
  · intro hd
    exact ⟨by unfold stepItem; rw [if_neg hd], loop_buf_clean items buf k hk hnd hd⟩

/-- C5 witness: a two-item list, the first dirty (countdown 2), the second
clean, with distinct indices 0 and 1. -/
theorem C5_dirty_propagation_witness :
    (([⟨fun _ _ => 0, fun _ _ => 0, 2, 0⟩,
       ⟨fun _ _ => 1, fun _ _ => 1, 0, 1⟩] :
        List RenderItem).map RenderItem.ObjCBIndex).Nodup ∧
    (0 : Nat) < ([⟨fun _ _ => 0, fun _ _ => 0, 2, 0⟩,
       ⟨fun _ _ => 1, fun _ _ => 1, 0, 1⟩] : List RenderItem).length ∧
    ((updateObjectCBsLoop
        [⟨fun _ _ => 0, fun _ _ => 0, 2, 0⟩,
         ⟨fun _ _ => 1, fun _ _ => 1, 0, 1⟩] (fun _ => none)).1 =
      ([⟨fun _ _ => 0, fun _ _ => 0, 2, 0⟩,
        ⟨fun _ _ => 1, fun _ _ => 1, 0, 1⟩] :
         List RenderItem).map stepItem) := by
  refine ⟨by decide, by decide, ?_⟩
  exact (C5_dirty_propagation
    [⟨fun _ _ => 0, fun _ _ => 0, 2, 0⟩, ⟨fun _ _ => 1, fun _ _ => 1, 0, 1⟩]
    (fun _ => none) (by decide) 0 (by decide)).1

lemma gpuProgress_eq (adv : Nat) (s : AppState) :
    gpuProgress adv s =
      { s with completedValue := min (s.completedValue + adv) s.mCurrentFence } := rfl

lemma rotate_eq (s : AppState) :
    rotate s =
      { s with mCurrFrameResourceIndex :=
          (s.mCurrFrameResourceIndex + 1) % gNumFrameResources } := rfl

lemma synchronize_eq (s : AppState) :
    synchronize s =
      { s with completedValue :=
          waitForFence s.completedValue (currSlot s).Fence } := rfl

lemma updateObjectCBs_eq (s : AppState) :
    updateObjectCBs s =
      { s with
          mAllRitems := (updateObjectCBsLoop s.mAllRitems (currSlot s).ObjectCB).1,
          frameResources := (s.frameResources.set s.mCurrFrameResourceIndex
            { currSlot s with
                ObjectCB := (updateObjectCBsLoop s.mAllRitems (currSlot s).ObjectCB).2 }) } := rfl

lemma updateMainPassCB_eq (s : AppState) :
    updateMainPassCB s =
      { s with frameResources := (s.frameResources.set s.mCurrFrameResourceIndex
          { currSlot s with PassCBWrites := (currSlot s).PassCBWrites + 1 }) } := rfl

lemma resetAllocator_eq (s : AppState) :
    resetAllocator s =
      { s with frameResources := (s.frameResources.set s.mCurrFrameResourceIndex
          { currSlot s with CmdAllocResets := (currSlot s).CmdAllocResets + 1 }) } := rfl

lemma present_eq (s : AppState) :
    present s =
      { s with mCurrBackBuffer := (s.mCurrBackBuffer + 1) % SwapChainBufferCount } := rfl

lemma stamp_eq (s : AppState) :
    stamp s =
      { s with
          mCurrentFence := s.mCurrentFence + 1,
          frameResources := (s.frameResources.set s.mCurrFrameResourceIndex
            { currSlot s with Fence := s.mCurrentFence + 1 }) } := rfl

lemma getD3_zero {α : Type} (x0 x1 x2 d : α) : [x0, x1, x2].getD 0 d = x0 := rfl

lemma getD3_one {α : Type} (x0 x1 x2 d : α) : [x0, x1, x2].getD 1 d = x1 := rfl

lemma getD3_two {α : Type} (x0 x1 x2 d : α) : [x0, x1, x2].getD 2 d = x2 := rfl

lemma set3_zero {α : Type} (x0 x1 x2 v : α) : [x0, x1, x2].set 0 v = [v, x1, x2] := rfl

lemma set3_one {α : Type} (x0 x1 x2 v : α) : [x0, x1, x2].set 1 v = [x0, v, x2] := rfl

lemma set3_two {α : Type} (x0 x1 x2 v : α) : [x0, x1, x2].set 2 v = [x0, x1, v] := rfl

set_option maxHeartbeats 1600000 in
/-- C6: countdown convergence, N = 3.  For an object built (or last
mutated) with countdown 3 and never changed again, starting from the
initialized app state: each of the next three frames applies exactly one
decrement (3→2→1→0); after three frames the countdown is exactly 0 and
the object's transposed payload sits at its `ObjCBIndex` in all three
slots' per-object buffers; and any further frame writes nothing — every
slot's per-object buffer is unchanged from frame 3 onward. -/
theorem C6_countdown_convergence (w t : Mat4) (idx : Nat) (a1 a2 a3 : Nat) :
    (run [a1] (initialState [mkRenderItem w t idx])).mAllRitems.map
        RenderItem.NumFramesDirty = [2] ∧
    (run [a1, a2] (initialState [mkRenderItem w t idx])).mAllRitems.map
        RenderItem.NumFramesDirty = [1] ∧
    (run [a1, a2, a3] (initialState [mkRenderItem w t idx])).mAllRitems.map
        RenderItem.NumFramesDirty = [0] ∧
    (∀ fr ∈ (run [a1, a2, a3] (initialState [mkRenderItem w t idx])).frameResources,
      fr.ObjectCB idx = some (objConstantsOf (mkRenderItem w t idx))) ∧
    (∀ a4 : Nat,
      (run [a4] (run [a1, a2, a3] (initialState [mkRenderItem w t idx]))).frameResources.map
          FrameResource.ObjectCB =
        (run [a1, a2, a3] (initialState [mkRenderItem w t idx])).frameResources.map
          FrameResource.ObjectCB) := by
  norm_num [run, frameStep, updateStep, drawStep, updatePhase,
    gpuProgress_eq, rotate_eq, synchronize_eq, updateObjectCBs_eq,
    updateMainPassCB_eq, resetAllocator_eq, present_eq, stamp_eq,
    currSlot, waitForFence, updateObjectCBsLoop, CopyData, objConstantsOf,
    initialState, mkRenderItem, mkFrameResource, gNumFrameResources,
    SwapChainBufferCount, getD3_zero, getD3_one, getD3_two,
    set3_zero, set3_one, set3_two]

/-- C7: dirty superseding.  If an object's transform is changed again
while its countdown is strictly between 0 and N, the prescribed mutation
resets the countdown to exactly N = gNumFrameResources — it is never
incremented or added to (the result is strictly below the old countdown
plus N). -/
theorem C7_dirty_superseding (e : RenderItem) (w : Mat4)
    (h1 : 0 < e.NumFramesDirty)
    (h2 : e.NumFramesDirty < (gNumFrameResources : Int)) :
    -- h2 records the claim's conditioning (countdown strictly below N);
    -- the reset is to exactly N regardless.
    (setWorld e w).NumFramesDirty = (gNumFrameResources : Int) ∧
    (setWorld e w).NumFramesDirty < e.NumFramesDirty + (gNumFrameResources : Int) ∧
    (setWorld e w).World = w := by
  refine ⟨rfl, ?_, rfl⟩
  show (gNumFrameResources : Int) < e.NumFramesDirty + (gNumFrameResources : Int)
  omega

/-- C7 witness: an item with countdown 1 (partially propagated) re-set to
a new transform. -/
theorem C7_dirty_superseding_witness :
    (0 : Int) < (⟨fun _ _ => 0, fun _ _ => 0, 1, 4⟩ : RenderItem).NumFramesDirty ∧
    (⟨fun _ _ => 0, fun _ _ => 0, 1, 4⟩ : RenderItem).NumFramesDirty <
      (gNumFrameResources : Int) ∧
    (setWorld ⟨fun _ _ => 0, fun _ _ => 0, 1, 4⟩ (fun _ _ => 7)).NumFramesDirty =
      (gNumFrameResources : Int) := by
  exact ⟨by decide, by decide,
    (C7_dirty_superseding ⟨fun _ _ => 0, fun _ _ => 0, 1, 4⟩ (fun _ _ => 7)
      (by decide) (by decide)).1⟩

lemma frameStep_items (adv : Nat) (s : AppState) :
    (frameStep adv s).mAllRitems = s.mAllRitems.map stepItem := by
  show (updateObjectCBsLoop s.mAllRitems _).1 = _
  exact loop_fst _ _

lemma stepItem_bounds (e : RenderItem) (h : DirtyBounds e) :
    DirtyBounds (stepItem e) := by
  unfold stepItem
  rcases h with ⟨h0, hN⟩
  split
  · constructor
    · show (0 : Int) ≤ e.NumFramesDirty - 1
      omega
    · show e.NumFramesDirty - 1 ≤ (gNumFrameResources : Int)
      omega
  · exact ⟨h0, hN⟩

/-- C8: dirty countdown bounds.  A render item is constructed with
countdown exactly N; the sweep decrements by exactly 1 and only when the
countdown is positive, so `0 ≤ NumFramesDirty ≤ N` holds for every item
after every frame provided it held before; and the only other mutation —
an actual transform change — re-establishes the bound by setting the
countdown to exactly N. -/
theorem C8_dirty_bounds (adv : Nat) (s : AppState)
    (h : ∀ e ∈ s.mAllRitems, DirtyBounds e) :
    (∀ (w t : Mat4) (idx : Nat),
      (mkRenderItem w t idx).NumFramesDirty = (gNumFrameResources : Int) ∧
      DirtyBounds (mkRenderItem w t idx)) ∧
    (∀ e ∈ (frameStep adv s).mAllRitems, DirtyBounds e) ∧
    (∀ (e : RenderItem) (w : Mat4), DirtyBounds (setWorld e w)) := by
  refine ⟨fun w t idx => ⟨rfl, by constructor <;> norm_num [mkRenderItem, gNumFrameResources]⟩,
    ?_, fun e w => by constructor <;> norm_num [setWorld, gNumFrameResources]⟩
  intro e he
  rw [frameStep_items] at he
  rcases List.mem_map.mp he with ⟨e', he', rfl⟩
  exact stepItem_bounds e' (h e' he')

/-- C8 witness: a single freshly built item satisfies the precondition. -/
theorem C8_dirty_bounds_witness :
    (∀ e ∈ (initialState [mkRenderItem (fun _ _ => 0) (fun _ _ => 0) 0]).mAllRitems,
      DirtyBounds e) ∧
    (∀ e ∈ (frameStep 1 (initialState [mkRenderItem (fun _ _ => 0) (fun _ _ => 0) 0])).mAllRitems,
      DirtyBounds e) := by
  have h : ∀ e ∈ (initialState [mkRenderItem (fun _ _ => 0) (fun _ _ => 0) 0]).mAllRitems,
      DirtyBounds e := by
    intro e he
    rcases List.mem_singleton.mp he with rfl
    exact ⟨by decide, by decide⟩
  exact ⟨h, (C8_dirty_bounds 1 (initialState [mkRenderItem (fun _ _ => 0) (fun _ _ => 0) 0]) h).2.1⟩

/-- C9: per-frame driver ordering.  A produced frame is exactly the
sequential composition Rotate → Synchronize → Update sweeps → allocator
reset/Record → Submit → Present → Stamp (no branching back); the ring
index is advanced once, at Rotate, and is the index every later step
targets; Present advances the display back-buffer index by 1 modulo the
swap-chain buffer count; Stamp stores the incremented fence counter as
the marker of the slot just used; and Synchronize is the only step that
can touch the (possibly awaited) completed value — every other step
leaves it unchanged. -/
theorem C9_frame_ordering (adv : Nat) (s : AppState)
    (hlen : s.frameResources.length = gNumFrameResources) :
    frameStep adv s =
      stamp (present (resetAllocator (updateMainPassCB (updateObjectCBs
        (synchronize (rotate (gpuProgress adv s))))))) ∧
    (frameStep adv s).mCurrFrameResourceIndex =
      (s.mCurrFrameResourceIndex + 1) % gNumFrameResources ∧
    (frameStep adv s).mCurrBackBuffer =
      (s.mCurrBackBuffer + 1) % SwapChainBufferCount ∧
    (frameStep adv s).mCurrentFence = s.mCurrentFence + 1 ∧
    (((frameStep adv s).frameResources).getD
        ((s.mCurrFrameResourceIndex + 1) % gNumFrameResources) default).Fence =
      s.mCurrentFence + 1 ∧
    (∀ t : AppState,
      (rotate t).completedValue = t.completedValue ∧
      (updateObjectCBs t).completedValue = t.completedValue ∧
      (updateMainPassCB t).completedValue = t.completedValue ∧
      (resetAllocator t).completedValue = t.completedValue ∧
      (present t).completedValue = t.completedValue ∧
      (stamp t).completedValue = t.completedValue) := by
  exact ⟨rfl, frameStep_idx adv s, rfl, rfl, frameStep_stamped_marker adv s hlen,
    fun t => ⟨rfl, rfl, rfl, rfl, rfl, rfl⟩⟩

/-- C9 witness: the initialized state has three slots. -/
theorem C9_frame_ordering_witness :
    (initialState []).frameResources.length = gNumFrameResources ∧
    (frameStep 0 (initialState [])).mCurrFrameResourceIndex =
      ((initialState []).mCurrFrameResourceIndex + 1) % gNumFrameResources := by
  exact ⟨rfl, (C9_frame_ordering 0 (initialState []) rfl).2.1⟩

end GameA2
